import Mathlib

/-!
Verification development for the `app-store-api` repository (Go).

The Go sources under `pkg/helm/client.go`, `pkg/metrics/service.go` and
`pkg/api/handlers.go` are shallowly embedded below.  External effects
(the Helm backend, the Kubernetes API, subprocess invocations of the
`helm` CLI) are modelled as explicit environments/oracles supplied to
the embedded functions; the embedded functions additionally return a
trace of the externally visible commands they issue, so that statements
about "what was attempted" can be made precisely.
-/

namespace AppStoreAPI

/-! ## String utilities

`strContains s pat` models Go's `strings.Contains(s, pat)` (character
based; all patterns matched in this codebase are ASCII, where byte and
rune matching agree).  `goSplitN2 s` models `strings.SplitN(s, "/", 2)`. -/

/-- Does `pat` occur as a leading block of `s`?  (Char-list version of a
prefix test, used to define substring containment.) -/
def isPrefixList : List Char → List Char → Bool
  | [], _ => true
  | _ :: _, [] => false
  | a :: as, b :: bs => a == b && isPrefixList as bs

/-- Does `pat` occur as a contiguous sublist of `s`? -/
def hasSubList : List Char → List Char → Bool
  | [], pat => pat.isEmpty
  | c :: t, pat => isPrefixList pat (c :: t) || hasSubList t pat

/-- Model of Go `strings.Contains`. -/
def strContains (s pat : String) : Bool :=
  hasSubList s.data pat.data

/-- Split a character list around its first `/`: the part before it and,
when a `/` exists, the remainder after it. -/
def splitSlash : List Char → List Char × Option (List Char)
  | [] => ([], none)
  | c :: t =>
    if c = '/' then ([], some t)
    else
      let (a, r) := splitSlash t
      (c :: a, r)

/-- Model of Go `strings.SplitN(s, "/", 2)`: at most two pieces, split at
the first `/`. -/
def goSplitN2 (s : String) : List String :=
  match splitSlash s.data with
  | (a, none) => [String.mk a]
  | (a, some r) => [String.mk a, String.mk r]

theorem isPrefixList_self_append (pat rest : List Char) :
    isPrefixList pat (pat ++ rest) = true := by
  induction pat with
  | nil => rfl
  | cons a as ih => simp [isPrefixList, ih]

theorem hasSubList_append (x pat y : List Char) :
    hasSubList (x ++ pat ++ y) pat = true := by
  induction x with
  | nil =>
    cases pat with
    | nil => cases y <;> simp [hasSubList, isPrefixList]
    | cons a as =>
      have h : isPrefixList (a :: as) ((a :: as) ++ y) = true :=
        isPrefixList_self_append _ _
      simp only [List.nil_append, hasSubList, Bool.or_eq_true]
      exact Or.inl (by simpa using h)
  | cons c t ih =>
    simp only [List.cons_append, hasSubList, Bool.or_eq_true]
    exact Or.inr (by simpa [List.append_assoc] using ih)

theorem string_data_append (s t : String) : (s ++ t).data = s.data ++ t.data := by
  cases s; cases t; rfl

/-- The function `strContains` finds a pattern that occurs between two other pieces. -/
theorem strContains_of_middle (a pat b : String) :
    strContains (a ++ pat ++ b) pat = true := by
  have h := hasSubList_append a.data pat.data b.data
  simpa [strContains, string_data_append] using h

/-! ## Data model (`pkg/helm/types.go`) -/

/-- Structure `ChartDefinition` from `pkg/helm/types.go`. -/
structure ChartDefinition where
  name : String
  chart : String
  version : String
  repoURL : String
  deriving Repr, DecidableEq

/-! ## Repository synchronization (`pkg/helm/client.go`, `UpdateRepos`)

The external world of `UpdateRepos` consists of the outcomes of the
`helm repo add`/`helm repo update` subprocess invocations; `RepoEnv`
gives those outcomes.  The embedded function returns the error value of
the Go function (always `nil`, modelled `none`, per lines 128-136) and
the trace of CLI commands it executed together with their outcomes. -/

/-- Outcomes of the `helm` CLI invocations made during `UpdateRepos`. -/
structure RepoEnv where
  addOk : String → String → Bool
  updateOk : Bool

/-- A `helm` CLI command issued by `UpdateRepos`, with its outcome. -/
inductive RepoCmd where
  | repoAdd (repoName url : String) (ok : Bool)
  | repoUpdate (ok : Bool)
  deriving Repr, DecidableEq

/-- One iteration of the loop in `UpdateRepos` (lines 85-118).
State: the set of successfully registered repo names (`addedRepos`)
and the trace of commands issued so far. -/
def updateReposStep (env : RepoEnv) (acc : List String × List RepoCmd)
    (chart : ChartDefinition) : List String × List RepoCmd :=
  let (added, cmds) := acc
  if chart.repoURL = "" then acc
  else
    match goSplitN2 chart.chart with
    | [repoName, _] =>
      if added.contains repoName then acc
      else if env.addOk repoName chart.repoURL then
        (added ++ [repoName], cmds ++ [RepoCmd.repoAdd repoName chart.repoURL true])
      else
        (added, cmds ++ [RepoCmd.repoAdd repoName chart.repoURL false])
    | _ => acc   -- len(parts) < 2: malformed reference, skipped (lines 90-93)

/-- Model of `UpdateRepos` (lines 80-137).  A failure of the final global
`helm repo update` is only logged (lines 128-131); the function always
returns `nil` (`none`). -/
def updateRepos (env : RepoEnv) (charts : List ChartDefinition) :
    Option String × List RepoCmd :=
  let (added, cmds) := charts.foldl (updateReposStep env) ([], [])
  if added.length > 0 then
    (none, cmds ++ [RepoCmd.repoUpdate env.updateOk])
  else
    (none, cmds)

/-- Is this command a successful `helm repo add` for the given repo name? -/
def isSuccessAdd (name : String) : RepoCmd → Bool
  | .repoAdd n _ ok => ok && n == name
  | .repoUpdate _ => false

/-- Is this command the global `helm repo update`? -/
def isGlobalUpdate : RepoCmd → Bool
  | .repoUpdate _ => true
  | _ => false

/-! ## Chart installation (`pkg/helm/client.go`, `InstallChart`, lines 140-195)

The Helm backend (release history, chart resolution, chart loading, the
install action) is modelled by an `InstallEnv` oracle.  `locate1` is the
outcome of the first `LocateChart` attempt (line 169) and `locate2` the
outcome of the retry (line 175), which may differ because the repository
synchronization ran in between.  The chart `values` map does not
influence any control flow modelled here, so it is absorbed into
`env.install`. -/

/-- Result of the release-history query (`action.NewHistory`, `Max = 1`). -/
inductive HistoryResult where
  | success (numRecords : Nat)
  | failure (msg : String)
  deriving Repr, DecidableEq

/-- The fields of `release.Release` surfaced by this wrapper. -/
structure InstalledRelease where
  name : String
  nsp : String
  version : Nat
  status : String
  deriving Repr, DecidableEq

/-- Backend oracle for one `InstallChart` call. -/
structure InstallEnv where
  history : String → HistoryResult
  locate1 : Except String String
  locate2 : Except String String
  load : String → Except String String
  install : String → Except String InstalledRelease

/-- Externally visible actions of `InstallChart`, in order. -/
inductive InstallEvent where
  | historyCheck (releaseName : String)
  | locateAttempt (k : Nat)
  | updateReposCall (charts : List ChartDefinition)
  | loadChart (path : String)
  | installCall (releaseName : String)
  deriving Repr, DecidableEq

/-- Errors returned by `InstallChart`, one constructor per `fmt.Errorf`
site in lines 140-195. -/
inductive InstallError where
  | alreadyExists (releaseName nsp : String)
  | historyCheckFailed (releaseName msg : String)
  | couldNotLocate (chart version msg : String)
  | loadFailed (path msg : String)
  | installFailed (chartName msg : String)
  deriving Repr, DecidableEq

/-- Release-name defaulting (lines 141-143). -/
def resolvedName (chartDef : ChartDefinition) (releaseName : String) : String :=
  if releaseName = "" then chartDef.name else releaseName

/-- Tail of `InstallChart` after a chart path was found: `loader.Load`
(lines 182-185) and `client.Run` (lines 187-194). -/
def installChartFinish (env : InstallEnv) (releaseName : String)
    (events : List InstallEvent) (cp : String) :
    Except InstallError InstalledRelease × List InstallEvent :=
  match env.load cp with
  | .error e => (.error (.loadFailed cp e), events ++ [.loadChart cp])
  | .ok chartName =>
    match env.install chartName with
    | .error e =>
      (.error (.installFailed chartName e),
        events ++ [.loadChart cp, .installCall releaseName])
    | .ok rel =>
      (.ok rel, events ++ [.loadChart cp, .installCall releaseName])

/-- Chart resolution with the single repo-update-and-retry fallback
(lines 168-179).  On a first `LocateChart` failure the code calls
`hc.UpdateRepos([]ChartDefinition{chartDef})` — whose error, always
`nil`, is only logged (lines 172-174) — and retries exactly once. -/
def installChartResolve (env : InstallEnv) (chartDef : ChartDefinition)
    (releaseName : String) (events : List InstallEvent) :
    Except InstallError InstalledRelease × List InstallEvent :=
  match env.locate1 with
  | .ok cp => installChartFinish env releaseName (events ++ [.locateAttempt 1]) cp
  | .error _ =>
    let events := events ++
      [.locateAttempt 1, .updateReposCall [chartDef], .locateAttempt 2]
    match env.locate2 with
    | .ok cp => installChartFinish env releaseName events cp
    | .error e2 =>
      (.error (.couldNotLocate chartDef.chart chartDef.version e2), events)

/-- Model of `InstallChart` (lines 140-195).  `nsp` is the client's bound install
namespace (`hc.config.AppInstallNamespace`). -/
def installChart (env : InstallEnv) (nsp : String) (chartDef : ChartDefinition)
    (releaseName0 : String) :
    Except InstallError InstalledRelease × List InstallEvent :=
  let releaseName := resolvedName chartDef releaseName0
  let events := [InstallEvent.historyCheck releaseName]
  match env.history releaseName with
  | .success n =>
    if 0 < n then (.error (.alreadyExists releaseName nsp), events)
    else installChartResolve env chartDef releaseName events
  | .failure msg =>
    if strContains msg "release: not found" then
      installChartResolve env chartDef releaseName events
    else
      (.error (.historyCheckFailed releaseName msg), events)

/-- Does the history pre-check (lines 145-151) let the install proceed? -/
def historyAllowsInstall : HistoryResult → Bool
  | .success n => decide (n = 0)
  | .failure msg => strContains msg "release: not found"

/-- Event discriminators, used to count occurrences in a trace. -/
def isUpdateReposEvent : InstallEvent → Bool
  | .updateReposCall _ => true
  | _ => false

def isLocateEvent : InstallEvent → Bool
  | .locateAttempt _ => true
  | _ => false

def isInstallEvent : InstallEvent → Bool
  | .installCall _ => true
  | _ => false

def isLoadEvent : InstallEvent → Bool
  | .loadChart _ => true
  | _ => false

/-! ## Node-port enrichment (`pkg/helm/client.go`, `getReleaseNodePorts`,
lines 229-258)

The Service objects returned by the label-selector query are the input;
the Go `map[string]int32` is modelled as an association list with
insert-or-replace, so that `len` is the number of distinct keys. -/

/-- One entry of `service.Spec.Ports`. -/
structure ServicePort where
  name : String
  port : Int
  nodePort : Int
  deriving Repr, DecidableEq

/-- The fields of a Kubernetes Service consulted by the code. -/
structure K8sService where
  svcType : String
  ports : List ServicePort
  deriving Repr, DecidableEq

/-- Go map assignment `m[k] = v`: replace the value under an existing
key, or append a new key. -/
def insertPort (m : List (String × Int)) (k : String) (v : Int) :
    List (String × Int) :=
  if m.any (fun p => p.1 == k) then
    m.map (fun p => if p.1 == k then (k, v) else p)
  else
    m ++ [(k, v)]

/-- The key under which a port is stored: the port name, or the port
number rendered as a string when the name is empty (lines 245-248). -/
def portKey (p : ServicePort) : String :=
  if p.name = "" then toString p.port else p.name

/-- The inner port loop (lines 243-251), one port at a time: collect
every port with a positive `NodePort` under its key. -/
def collectPortsAux (m : List (String × Int)) : List ServicePort → List (String × Int)
  | [] => m
  | p :: rest =>
    if 0 < p.nodePort then
      collectPortsAux (insertPort m (portKey p) p.nodePort) rest
    else
      collectPortsAux m rest

/-- The inner port loop (lines 243-251) over one Service's ports. -/
def collectServicePorts (m0 : List (String × Int)) (s : K8sService) :
    List (String × Int) :=
  collectPortsAux m0 s.ports

/-- Service type filter (line 242). -/
def qualifiesForPorts (s : K8sService) : Bool :=
  s.svcType == "NodePort" || s.svcType == "LoadBalancer"

/-- The outer service loop (lines 241-256) with its early `break` once
the accumulated map is non-empty. -/
def nodePortsLoop (m : List (String × Int)) : List K8sService → List (String × Int)
  | [] => m
  | s :: rest =>
    if qualifiesForPorts s then
      let m2 := collectServicePorts m s
      if 0 < m2.length then m2 else nodePortsLoop m2 rest
    else nodePortsLoop m rest

/-- Model of `getReleaseNodePorts` (lines 229-258), for a successful Service
list query (on a query error the function returns the empty map,
line 238). -/
def getReleaseNodePorts (services : List K8sService) : List (String × Int) :=
  nodePortsLoop [] services

/-- Does some port of the Service carry a positive `NodePort`? -/
def hasPositivePort (s : K8sService) : Bool :=
  s.ports.any (fun p => decide (0 < p.nodePort))

/-! ## Release uninstallation (`pkg/helm/client.go`, `UninstallRelease`,
lines 261-275) and its HTTP handler (`pkg/api/handlers.go`,
`UninstallReleaseHandler`, lines 111-123)

The backend outcome of `uninstallClient.Run` is the oracle.  Errors are
plain strings, because both layers classify errors by substring
matching on the message text. -/

/-- Message of the distinct not-found error (line 269). -/
def notFoundMsg (releaseName nsp : String) : String :=
  "release '" ++ releaseName ++ "' not found in namespace '" ++ nsp ++ "'"

/-- Message of the generic uninstall failure (line 271); `%w` embeds the
backend message. -/
def genericUninstallMsg (releaseName backendMsg : String) : String :=
  "failed to uninstall release '" ++ releaseName ++ "': " ++ backendMsg

/-- Model of `UninstallRelease` (lines 261-275). -/
def uninstallRelease (backend : Except String Unit) (releaseName nsp : String) :
    Except String Unit :=
  match backend with
  | .ok _ => .ok ()
  | .error e =>
    if strContains e "release: not found" then
      .error (notFoundMsg releaseName nsp)
    else
      .error (genericUninstallMsg releaseName e)

/-- HTTP statuses produced by `UninstallReleaseHandler`. -/
inductive HttpStatus where
  | ok200
  | notFound404
  | serverError500
  deriving Repr, DecidableEq

/-- Model of `UninstallReleaseHandler` (lines 111-123): 404 when the error text
contains "not found", 500 otherwise, 200 on success. -/
def uninstallReleaseHandler (backend : Except String Unit)
    (releaseName nsp : String) : HttpStatus :=
  match uninstallRelease backend releaseName nsp with
  | .ok _ => .ok200
  | .error e =>
    if strContains e "not found" then .notFound404 else .serverError500

/-! ## Metrics snapshot (`pkg/metrics/service.go`,
`GetClusterMetricsSnapshot`, lines 30-130)

The two list queries (node metrics, nodes) are the input; the claims
concern the pure join-and-aggregate computation of lines 56-129, which
runs only when both queries succeeded.  `MilliValue`/`Value` of
`resource.Quantity` are `int64`; they are modelled as `Int` (the sums
involved are far below the `int64` range for any physical cluster, so
wraparound is not modelled).  The `float64` percentages are modelled as
exact rationals; the claims only concern the zero-capacity guard, not
rounding. -/

/-- The fields of a `corev1.Node` consulted by the code
(`Status.Allocatable` cpu/memory, converted at lines 78-84). -/
structure NodeInfo where
  name : String
  allocatableCPUMilli : Int
  allocatableMemBytes : Int
  deriving Repr, DecidableEq

/-- One entry of the node-metrics list (`Usage` cpu/memory, converted at
lines 81-82). -/
structure NodeMetricsSample where
  name : String
  cpuUsageMilli : Int
  memUsageBytes : Int
  deriving Repr, DecidableEq

/-- Output record for one node (`NodeMetrics` in `pkg/metrics/types.go`). -/
structure NodeMetricsOut where
  name : String
  cpuUsageMilli : Int
  memUsageBytes : Int
  cpuAvailMilli : Int
  memAvailBytes : Int
  cpuUsagePercent : ℚ
  memUsagePercent : ℚ
  deriving Repr, DecidableEq

/-- Output of the whole snapshot (`ClusterMetrics` in
`pkg/metrics/types.go`). -/
structure ClusterMetrics where
  totalCPUUsageMilli : Int
  totalCPUCapacityMilli : Int
  totalMemUsageBytes : Int
  totalMemCapacityBytes : Int
  avgCPUUsagePercent : ℚ
  avgMemUsagePercent : ℚ
  nodes : List NodeMetricsOut
  deriving Repr, DecidableEq

/-- The inner metrics-lookup loop (lines 63-70): first sample whose name
matches, scanning in list order. -/
def findMetrics (ms : List NodeMetricsSample) (name : String) :
    Option NodeMetricsSample :=
  ms.find? (fun nm => nm.name == name)

/-- Usage of a node: the matching sample's values, or zero when the node
has no sample (lines 72-76). -/
def nodeUsage (ms : List NodeMetricsSample) (n : NodeInfo) : Int × Int :=
  match findMetrics ms n.name with
  | some nm => (nm.cpuUsageMilli, nm.memUsageBytes)
  | none => (0, 0)

/-- The guarded percentage `usage*100/capacity`, `0` when the capacity
is not positive (lines 91-98 and 111-118 use this same pattern). -/
def pct (usage cap : Int) : ℚ :=
  if 0 < cap then (usage * 100 : ℚ) / (cap : ℚ) else 0

/-- The per-node output record appended at lines 100-108. -/
def mkNodeEntry (ms : List NodeMetricsSample) (n : NodeInfo) : NodeMetricsOut :=
  { name := n.name
    cpuUsageMilli := (nodeUsage ms n).1
    memUsageBytes := (nodeUsage ms n).2
    cpuAvailMilli := n.allocatableCPUMilli
    memAvailBytes := n.allocatableMemBytes
    cpuUsagePercent := pct (nodeUsage ms n).1 n.allocatableCPUMilli
    memUsagePercent := pct (nodeUsage ms n).2 n.allocatableMemBytes }

/-- Accumulator of the node loop (lines 56-109). -/
structure MetricsAcc where
  totalCPUUsage : Int
  totalCPUCapacity : Int
  totalMemUsage : Int
  totalMemCapacity : Int
  nodes : List NodeMetricsOut
  deriving Repr, DecidableEq

/-- One iteration of the node loop (lines 60-109). -/
def metricsStep (ms : List NodeMetricsSample) (acc : MetricsAcc) (n : NodeInfo) :
    MetricsAcc :=
  { totalCPUUsage := acc.totalCPUUsage + (nodeUsage ms n).1
    totalCPUCapacity := acc.totalCPUCapacity + n.allocatableCPUMilli
    totalMemUsage := acc.totalMemUsage + (nodeUsage ms n).2
    totalMemCapacity := acc.totalMemCapacity + n.allocatableMemBytes
    nodes := acc.nodes ++ [mkNodeEntry ms n] }

/-- Model of `GetClusterMetricsSnapshot` (lines 30-130), pure core: the node loop
followed by the cluster-average computation (lines 111-118) and the
result assembly (lines 121-129). -/
def getClusterMetricsSnapshot (nodes : List NodeInfo)
    (ms : List NodeMetricsSample) : ClusterMetrics :=
  let acc := nodes.foldl (metricsStep ms) ⟨0, 0, 0, 0, []⟩
  { totalCPUUsageMilli := acc.totalCPUUsage
    totalCPUCapacityMilli := acc.totalCPUCapacity
    totalMemUsageBytes := acc.totalMemUsage
    totalMemCapacityBytes := acc.totalMemCapacity
    avgCPUUsagePercent := pct acc.totalCPUUsage acc.totalCPUCapacity
    avgMemUsagePercent := pct acc.totalMemUsage acc.totalMemCapacity
    nodes := acc.nodes }

/-! ## Serialization of repository synchronization
(`pkg/helm/client.go`, lines 33 and 81-82)

`UpdateRepos` runs `hc.repoUpdateMu.Lock()` as its first statement and
`defer hc.repoUpdateMu.Unlock()` immediately after, so the body — the
per-chart registration loop and the final global refresh — executes
entirely between the acquisition and the release of the instance's
single mutex.  We model two goroutines concurrently executing
`UpdateRepos` on the same `HelmClient` (whether called explicitly or as
the implicit retry inside `InstallChart`, which invokes the same
method): each thread runs the instruction sequence
`lock; work^(k); unlock`, where `k` is the number of body steps of its
call, under the standard mutex semantics (`Lock` blocks while the mutex
is held; `Unlock` releases it).  Mutual exclusion of the bodies is the
claimed property. -/

/-- The instruction shape of one `UpdateRepos` execution. -/
inductive ReposInstr where
  | lockMu
  | work
  | unlockMu
  deriving Repr, DecidableEq

/-- The instruction sequence of `UpdateRepos` on a given chart list: the
mutex acquisition (line 81), one body step per chart-loop iteration plus
one for the final global refresh (lines 84-135), and the deferred mutex
release (line 82). -/
def updateReposProg (charts : List ChartDefinition) : List ReposInstr :=
  [ReposInstr.lockMu] ++
    List.replicate (charts.length + 1) ReposInstr.work ++
    [ReposInstr.unlockMu]

/-- Identity of the two modelled goroutines. -/
inductive GoThread where
  | one
  | two
  deriving Repr, DecidableEq

/-- A configuration of the two-goroutine system: each thread's program
counter inside its own `updateReposProg`, plus the mutex owner. -/
structure ReposConfig where
  pc1 : Nat
  pc2 : Nat
  holder : Option GoThread
  deriving Repr, DecidableEq

/-- Is a thread with body length `k` (i.e. program `lock; work^k; unlock`)
inside its critical section — past the `lock` and not yet past the
`unlock`? -/
def inCS (k pc : Nat) : Prop :=
  1 ≤ pc ∧ pc ≤ k + 1

/-- Interleaving semantics: at each step one thread executes the
instruction at its program counter.  `lockMu` is enabled only while the
mutex is free; `work` and `unlockMu` are always enabled at their
program points.  `k1`, `k2` are the body lengths of the two calls
(e.g. `charts.length + 1` for a call on `charts`). -/
inductive ReposStep (k1 k2 : Nat) : ReposConfig → ReposConfig → Prop
  | lock1 (c : ReposConfig) (hpc : c.pc1 = 0) (hfree : c.holder = none) :
      ReposStep k1 k2 c ⟨1, c.pc2, some .one⟩
  | work1 (c : ReposConfig) (h1 : 1 ≤ c.pc1) (h2 : c.pc1 ≤ k1) :
      ReposStep k1 k2 c ⟨c.pc1 + 1, c.pc2, c.holder⟩
  | unlock1 (c : ReposConfig) (hpc : c.pc1 = k1 + 1) :
      ReposStep k1 k2 c ⟨k1 + 2, c.pc2, none⟩
  | lock2 (c : ReposConfig) (hpc : c.pc2 = 0) (hfree : c.holder = none) :
      ReposStep k1 k2 c ⟨c.pc1, 1, some .two⟩
  | work2 (c : ReposConfig) (h1 : 1 ≤ c.pc2) (h2 : c.pc2 ≤ k2) :
      ReposStep k1 k2 c ⟨c.pc1, c.pc2 + 1, c.holder⟩
  | unlock2 (c : ReposConfig) (hpc : c.pc2 = k2 + 1) :
      ReposStep k1 k2 c ⟨c.pc1, k2 + 2, none⟩

/-- Configurations reachable from the initial one (both threads at the
`lock` instruction, mutex free). -/
inductive ReposReachable (k1 k2 : Nat) : ReposConfig → Prop
  | init : ReposReachable k1 k2 ⟨0, 0, none⟩
  | step {c c' : ReposConfig} (h : ReposReachable k1 k2 c)
      (hs : ReposStep k1 k2 c c') : ReposReachable k1 k2 c'

/-- The inductive invariant: a thread inside its critical section holds
the mutex. -/
def mutexInv (k1 k2 : Nat) (c : ReposConfig) : Prop :=
  (inCS k1 c.pc1 → c.holder = some .one) ∧
  (inCS k2 c.pc2 → c.holder = some .two)

theorem mutexInv_init (k1 k2 : Nat) : mutexInv k1 k2 ⟨0, 0, none⟩ := by
  constructor <;> · intro h; have h1 : (1 : Nat) ≤ 0 := h.1; omega

theorem mutexInv_step {k1 k2 : Nat} {c c' : ReposConfig}
    (hinv : mutexInv k1 k2 c) (hs : ReposStep k1 k2 c c') :
    mutexInv k1 k2 c' := by
  obtain ⟨inv1, inv2⟩ := hinv
  cases hs with
  | lock1 hpc hfree =>
    refine ⟨fun _ => rfl, fun h2 => ?_⟩
    exact absurd (inv2 h2) (by simp [hfree])
  | work1 h1 h2 =>
    have hold : c.holder = some .one := inv1 ⟨h1, by omega⟩
    exact ⟨fun _ => hold, fun h => by
      have hh := inv2 h
      simp [hold] at hh⟩
  | unlock1 hpc =>
    have hold : c.holder = some .one := inv1 ⟨by omega, by omega⟩
    refine ⟨fun h => ?_, fun h => ?_⟩
    · have h2 : k1 + 2 ≤ k1 + 1 := h.2
      omega
    · have hh := inv2 h
      rw [hold] at hh
      exact absurd hh (by simp)
  | lock2 hpc hfree =>
    refine ⟨fun h1 => ?_, fun _ => rfl⟩
    exact absurd (inv1 h1) (by simp [hfree])
  | work2 h1 h2 =>
    have hold : c.holder = some .two := inv2 ⟨h1, by omega⟩
    exact ⟨fun h => by
      have hh := inv1 h
      simp [hold] at hh, fun _ => hold⟩
  | unlock2 hpc =>
    have hold : c.holder = some .two := inv2 ⟨by omega, by omega⟩
    refine ⟨fun h => ?_, fun h => ?_⟩
    · have hh := inv1 h
      rw [hold] at hh
      exact absurd hh (by simp)
    · have h2 : k2 + 2 ≤ k2 + 1 := h.2
      omega

theorem mutexInv_reachable {k1 k2 : Nat} {c : ReposConfig}
    (h : ReposReachable k1 k2 c) : mutexInv k1 k2 c := by
  induction h with
  | init => exact mutexInv_init k1 k2
  | step _ hs ih => exact mutexInv_step ih hs

/-! ## Supporting lemmas about `updateRepos` -/

/-- Invariant of the registration loop: the trace holds exactly one
successful `helm repo add` for `name` when `name` is in `addedRepos`,
and none otherwise. -/
theorem updateReposStep_inv (env : RepoEnv) (name : String)
    (added : List String) (cmds : List RepoCmd) (chart : ChartDefinition)
    (h : (cmds.filter (isSuccessAdd name)).length =
      if name ∈ added then 1 else 0) :
    (((updateReposStep env (added, cmds) chart).2).filter
        (isSuccessAdd name)).length =
      if name ∈ (updateReposStep env (added, cmds) chart).1 then 1 else 0 := by
  unfold updateReposStep
  by_cases hurl : chart.repoURL = ""
  · simpa [hurl] using h
  · rcases hg : goSplitN2 chart.chart with _ | ⟨rn, _ | ⟨x, _ | ⟨r, rest⟩⟩⟩
    · simpa [hurl, hg] using h
    · simpa [hurl, hg] using h
    · by_cases hc : rn ∈ added
      · simpa [hurl, hg, hc] using h
      · by_cases ha : env.addOk rn chart.repoURL
        · by_cases hrn : rn = name
          · subst hrn
            have h0 : (cmds.filter (isSuccessAdd rn)).length = 0 := by
              simpa [hc] using h
            simp [hurl, hg, hc, ha, List.filter_append, isSuccessAdd, h0]
          · simpa [hurl, hg, hc, ha, List.filter_append, isSuccessAdd, hrn,
              Ne.symm hrn] using h
        · simpa [hurl, hg, hc, ha, List.filter_append, isSuccessAdd] using h
    · simpa [hurl, hg] using h

theorem updateRepos_fold_inv (env : RepoEnv) (name : String)
    (charts : List ChartDefinition) (added : List String) (cmds : List RepoCmd)
    (h : (cmds.filter (isSuccessAdd name)).length =
      if name ∈ added then 1 else 0) :
    (((charts.foldl (updateReposStep env) (added, cmds)).2).filter
        (isSuccessAdd name)).length =
      if name ∈ (charts.foldl (updateReposStep env) (added, cmds)).1
      then 1 else 0 := by
  induction charts generalizing added cmds with
  | nil => simpa using h
  | cons chart rest ih =>
    have hstep := updateReposStep_inv env name added cmds chart h
    rcases hp : updateReposStep env (added, cmds) chart with ⟨a2, c2⟩
    rw [hp] at hstep
    simp only [List.foldl_cons, hp]
    exact ih a2 c2 hstep

/-! ## Claim theorems -/

/-- Claim C1, counterexample.  A call to `UpdateRepos` in which one
repository is registered successfully and the final global
`helm repo update` then fails: the failing refresh was executed (it is
in the command trace), yet the call returns `nil` (no error reaches the
caller), contradicting the claim that such a failure is surfaced as an
error.  In the source the failure is only logged as a warning (lines
128-131) and the function unconditionally ends with `return nil`. -/
theorem C1_refresh_failure_returns_nil_counterexample :
    (updateRepos ⟨fun _ _ => true, false⟩
        [⟨"nginx", "bitnami/nginx", "15.0.0", "https://example.test/bitnami"⟩]).1
      = none ∧
    (updateRepos ⟨fun _ _ => true, false⟩
        [⟨"nginx", "bitnami/nginx", "15.0.0", "https://example.test/bitnami"⟩]).2
      = [RepoCmd.repoAdd "bitnami" "https://example.test/bitnami" true,
         RepoCmd.repoUpdate false] := by
  decide

/-- Claim C1, amended: for every call to `UpdateRepos`, whatever the
outcomes of the per-repository registrations and of the final global
`helm repo update` index refresh, the call returns `nil` — a refresh
failure is only logged and is never surfaced to the caller as an error
(and, as before, registration failures are only logged and skipped and
already-registered repositories are not rolled back). -/
theorem C1_updateRepos_never_returns_error (env : RepoEnv)
    (charts : List ChartDefinition) :
    (updateRepos env charts).1 = none := by
  unfold updateRepos
  rcases charts.foldl (updateReposStep env) ([], []) with ⟨added, cmds⟩
  by_cases h : added.length > 0 <;> simp [h]

/-- Claim C4: within a single `UpdateRepos` call, each repository name
(the prefix of the chart reference before the first `/`) is registered
successfully at most once — even when several chart definitions in the
list share that repository name — and a definition whose chart
reference contains no `/` is skipped entirely (no CLI command results
from it). -/
theorem C4_updateRepos_dedup_and_skip (env : RepoEnv)
    (charts : List ChartDefinition) (name : String) :
    (((updateRepos env charts).2).filter (isSuccessAdd name)).length ≤ 1 ∧
    (∀ chart : ChartDefinition, chart.repoURL ≠ "" →
      (goSplitN2 chart.chart).length < 2 →
      updateRepos env [chart] = (none, [])) := by
  constructor
  · have hinv := updateRepos_fold_inv env name charts [] [] (by simp)
    unfold updateRepos
    rcases hp : charts.foldl (updateReposStep env) ([], []) with ⟨added, cmds⟩
    rw [hp] at hinv
    by_cases h : added.length > 0 <;>
      simp [h, List.filter_append, isSuccessAdd] <;>
      rw [hinv] <;> split <;> omega
  · intro chart hurl hsplit
    unfold updateRepos updateReposStep
    rcases hg : goSplitN2 chart.chart with _ | ⟨rn, _ | ⟨x, rest⟩⟩
    · simp [hurl, hg]
    · simp [hurl, hg]
    · rw [hg] at hsplit
      simp at hsplit
      omega

/-- Claim C4, witness: two definitions sharing the `bitnami` repository
produce at most one successful registration; a slash-less reference is
skipped. -/
theorem C4_witness :
    (((⟨"bad", "nochart", "1.0", "https://example.test/x"⟩ :
        ChartDefinition).repoURL ≠ "" ∧
      (goSplitN2 "nochart").length < 2) ∧
    ((((updateRepos ⟨fun _ _ => true, true⟩
          [⟨"nginx", "bitnami/nginx", "15.0.0", "https://example.test/bitnami"⟩,
           ⟨"redis", "bitnami/redis", "17.0.0", "https://example.test/bitnami"⟩]).2).filter
        (isSuccessAdd "bitnami")).length ≤ 1 ∧
      updateRepos ⟨fun _ _ => true, true⟩
          [⟨"bad", "nochart", "1.0", "https://example.test/x"⟩] = (none, []))) :=
  ⟨⟨by decide, by decide⟩,
    ⟨(C4_updateRepos_dedup_and_skip ⟨fun _ _ => true, true⟩
        [⟨"nginx", "bitnami/nginx", "15.0.0", "https://example.test/bitnami"⟩,
         ⟨"redis", "bitnami/redis", "17.0.0", "https://example.test/bitnami"⟩]
        "bitnami").1,
      (C4_updateRepos_dedup_and_skip ⟨fun _ _ => true, true⟩
        [⟨"nginx", "bitnami/nginx", "15.0.0", "https://example.test/bitnami"⟩,
         ⟨"redis", "bitnami/redis", "17.0.0", "https://example.test/bitnami"⟩]
        "bitnami").2
        ⟨"bad", "nochart", "1.0", "https://example.test/x"⟩
        (by decide) (by decide)⟩⟩

/-- Events appended by `installChartFinish` are only `loadChart` and
`installCall` events; any filter rejecting those sees exactly the events
passed in. -/
theorem installChartFinish_filter (env : InstallEnv) (rn : String)
    (events : List InstallEvent) (cp : String) (p : InstallEvent → Bool)
    (hl : ∀ s, p (.loadChart s) = false)
    (hi : ∀ s, p (.installCall s) = false) :
    ((installChartFinish env rn events cp).2).filter p = events.filter p := by
  unfold installChartFinish
  rcases h1 : env.load cp with e | chartName
  · simp [h1, List.filter_append, hl]
  · rcases h2 : env.install chartName with e | rel <;>
      simp [h1, h2, List.filter_append, hl, hi]

/-- Every branch of `installChart` reports the history pre-check on the
resolved release name as its first event. -/
theorem installChart_head_event (env : InstallEnv) (nsp : String)
    (chartDef : ChartDefinition) (rn0 : String) :
    (installChart env nsp chartDef rn0).2.head? =
      some (.historyCheck (resolvedName chartDef rn0)) := by
  unfold installChart installChartResolve installChartFinish
  rcases hh : env.history (resolvedName chartDef rn0) with n | msg
  · by_cases hn : 0 < n
    · simp [hh, hn]
    · rcases hc1 : env.locate1 with e1 | cp
      · rcases hc2 : env.locate2 with e2 | cp2
        · simp [hh, hn, hc1, hc2]
        · rcases hld : env.load cp2 with e | cn
          · simp [hh, hn, hc1, hc2, hld]
          · rcases hin : env.install cn with e | rel <;>
              simp [hh, hn, hc1, hc2, hld, hin]
      · rcases hld : env.load cp with e | cn
        · simp [hh, hn, hc1, hld]
        · rcases hin : env.install cn with e | rel <;>
            simp [hh, hn, hc1, hld, hin]
  · by_cases hm : strContains msg "release: not found"
    · rcases hc1 : env.locate1 with e1 | cp
      · rcases hc2 : env.locate2 with e2 | cp2
        · simp [hh, hm, hc1, hc2]
        · rcases hld : env.load cp2 with e | cn
          · simp [hh, hm, hc1, hc2, hld]
          · rcases hin : env.install cn with e | rel <;>
              simp [hh, hm, hc1, hc2, hld, hin]
      · rcases hld : env.load cp with e | cn
        · simp [hh, hm, hc1, hld]
        · rcases hin : env.install cn with e | rel <;>
            simp [hh, hm, hc1, hld, hin]
    · simp [hh, hm]

/-- Claim C2: a release name with at least one history record makes
`InstallChart` fail with the "already exists" error before any chart
resolution or installation is attempted (its whole trace is the history
check); and, sequentially, a first install of that name succeeds when
the backend cooperates (empty history, successful resolution, load and
install) while a second call, now seeing one history record, fails with
the duplicate-release error. -/
theorem C2_duplicate_release_precheck (env1 env2 : InstallEnv) (nsp : String)
    (chartDef : ChartDefinition) (rn cp chartName : String)
    (rel : InstalledRelease) (m : Nat)
    (h2 : env2.history (resolvedName chartDef rn) = .success m) (hm : 0 < m) :
    (installChart env2 nsp chartDef rn =
      (.error (.alreadyExists (resolvedName chartDef rn) nsp),
        [.historyCheck (resolvedName chartDef rn)])) ∧
    (env1.history (resolvedName chartDef rn) = .success 0 →
      env1.locate1 = .ok cp →
      env1.load cp = .ok chartName →
      env1.install chartName = .ok rel →
      (installChart env1 nsp chartDef rn).1 = .ok rel) := by
  constructor
  · simp [installChart, h2, hm]
  · intro hh hloc hload hinst
    simp [installChart, installChartResolve, installChartFinish,
      hh, hloc, hload, hinst]

/-- Claim C2, witness: with a one-record history the call fails with
"already exists"; with an empty history and a cooperative backend the
first call succeeds. -/
theorem C2_witness :
    ((⟨fun _ => .success 1, .ok "/tmp/c.tgz", .ok "/tmp/c.tgz",
        fun _ => .ok "nginx", fun _ => .ok ⟨"web", "apps", 1, "deployed"⟩⟩ :
          InstallEnv).history
        (resolvedName ⟨"nginx", "bitnami/nginx", "1.0", "u"⟩ "web") =
        .success 1 ∧ 0 < 1) ∧
    (installChart
        ⟨fun _ => .success 1, .ok "/tmp/c.tgz", .ok "/tmp/c.tgz",
          fun _ => .ok "nginx", fun _ => .ok ⟨"web", "apps", 1, "deployed"⟩⟩
        "apps" ⟨"nginx", "bitnami/nginx", "1.0", "u"⟩ "web" =
      (.error (.alreadyExists "web" "apps"), [.historyCheck "web"])) ∧
    ((installChart
        ⟨fun _ => .success 0, .ok "/tmp/c.tgz", .ok "/tmp/c.tgz",
          fun _ => .ok "nginx", fun _ => .ok ⟨"web", "apps", 1, "deployed"⟩⟩
        "apps" ⟨"nginx", "bitnami/nginx", "1.0", "u"⟩ "web").1 =
      .ok ⟨"web", "apps", 1, "deployed"⟩) := by
  refine ⟨⟨rfl, by decide⟩, ?_, ?_⟩
  · have h := C2_duplicate_release_precheck
      ⟨fun _ => .success 0, .ok "/tmp/c.tgz", .ok "/tmp/c.tgz",
        fun _ => .ok "nginx", fun _ => .ok ⟨"web", "apps", 1, "deployed"⟩⟩
      ⟨fun _ => .success 1, .ok "/tmp/c.tgz", .ok "/tmp/c.tgz",
        fun _ => .ok "nginx", fun _ => .ok ⟨"web", "apps", 1, "deployed"⟩⟩
      "apps" ⟨"nginx", "bitnami/nginx", "1.0", "u"⟩ "web" "/tmp/c.tgz" "nginx"
      ⟨"web", "apps", 1, "deployed"⟩ 1 rfl (by decide)
    exact h.1
  · have h := C2_duplicate_release_precheck
      ⟨fun _ => .success 0, .ok "/tmp/c.tgz", .ok "/tmp/c.tgz",
        fun _ => .ok "nginx", fun _ => .ok ⟨"web", "apps", 1, "deployed"⟩⟩
      ⟨fun _ => .success 1, .ok "/tmp/c.tgz", .ok "/tmp/c.tgz",
        fun _ => .ok "nginx", fun _ => .ok ⟨"web", "apps", 1, "deployed"⟩⟩
      "apps" ⟨"nginx", "bitnami/nginx", "1.0", "u"⟩ "web" "/tmp/c.tgz" "nginx"
      ⟨"web", "apps", 1, "deployed"⟩ 1 rfl (by decide)
    exact h.2 rfl rfl rfl rfl

/-- When the history pre-check lets the install proceed, `InstallChart`
continues with chart resolution. -/
theorem installChart_allows (env : InstallEnv) (nsp : String)
    (chartDef : ChartDefinition) (rn : String)
    (hh : historyAllowsInstall (env.history (resolvedName chartDef rn)) = true) :
    installChart env nsp chartDef rn =
      installChartResolve env chartDef (resolvedName chartDef rn)
        [.historyCheck (resolvedName chartDef rn)] := by
  rcases hist : env.history (resolvedName chartDef rn) with n | msg
  · have hn : n = 0 := by simpa [historyAllowsInstall, hist] using hh
    subst hn
    simp [installChart, hist]
  · have hm : strContains msg "release: not found" = true := by
      simpa [historyAllowsInstall, hist] using hh
    simp [installChart, hist, hm]

/-- Claim C3: when the history pre-check passes and the first
`LocateChart` attempt fails, `InstallChart` performs exactly one
repository-synchronization pass, scoped to exactly `[chartDef]`, and
exactly two resolution attempts; and if the retry also fails the call
returns the "could not locate chart" error, with no chart load and no
installation attempted. -/
theorem C3_locate_retry_exactly_once (env : InstallEnv) (nsp : String)
    (chartDef : ChartDefinition) (rn e1 : String)
    (hh : historyAllowsInstall (env.history (resolvedName chartDef rn)) = true)
    (hl1 : env.locate1 = .error e1) :
    ((installChart env nsp chartDef rn).2.filter isUpdateReposEvent =
      [.updateReposCall [chartDef]]) ∧
    ((installChart env nsp chartDef rn).2.filter isLocateEvent =
      [.locateAttempt 1, .locateAttempt 2]) ∧
    (∀ e2, env.locate2 = .error e2 →
      installChart env nsp chartDef rn =
        (.error (.couldNotLocate chartDef.chart chartDef.version e2),
          [.historyCheck (resolvedName chartDef rn), .locateAttempt 1,
            .updateReposCall [chartDef], .locateAttempt 2])) := by
  rw [installChart_allows env nsp chartDef rn hh]
  unfold installChartResolve
  rcases hl2 : env.locate2 with e2 | cp2
  · refine ⟨?_, ?_, ?_⟩
    · simp [hl1, hl2, isUpdateReposEvent, isLocateEvent]
    · simp [hl1, hl2, isUpdateReposEvent, isLocateEvent]
    · intro e2' h2
      cases h2
      simp [hl1]
  · have hupd := installChartFinish_filter env (resolvedName chartDef rn)
      ([.historyCheck (resolvedName chartDef rn), .locateAttempt 1,
        .updateReposCall [chartDef], .locateAttempt 2]) cp2 isUpdateReposEvent
      (fun _ => rfl) (fun _ => rfl)
    have hloc := installChartFinish_filter env (resolvedName chartDef rn)
      ([.historyCheck (resolvedName chartDef rn), .locateAttempt 1,
        .updateReposCall [chartDef], .locateAttempt 2]) cp2 isLocateEvent
      (fun _ => rfl) (fun _ => rfl)
    refine ⟨?_, ?_, ?_⟩
    · simp only [hl1, hl2]
      simpa [isUpdateReposEvent] using hupd
    · simp only [hl1, hl2]
      simpa [isLocateEvent] using hloc
    · intro e2 h2
      simp at h2

/-- Claim C3, witness: with both resolution attempts failing, the trace
holds one repo-sync call on `[chartDef]`, two locate attempts, and the
result is the terminal "could not locate" error. -/
theorem C3_witness :
    (historyAllowsInstall
        ((⟨fun _ => .success 0, .error "no chart", .error "still no chart",
            fun _ => .ok "nginx", fun _ => .ok ⟨"web", "apps", 1, "ok"⟩⟩ :
          InstallEnv).history
          (resolvedName ⟨"nginx", "bitnami/nginx", "1.0", "u"⟩ "web")) = true ∧
      (⟨fun _ => .success 0, .error "no chart", .error "still no chart",
          fun _ => .ok "nginx", fun _ => .ok ⟨"web", "apps", 1, "ok"⟩⟩ :
        InstallEnv).locate1 = .error "no chart") ∧
    ((installChart
        ⟨fun _ => .success 0, .error "no chart", .error "still no chart",
          fun _ => .ok "nginx", fun _ => .ok ⟨"web", "apps", 1, "ok"⟩⟩
        "apps" ⟨"nginx", "bitnami/nginx", "1.0", "u"⟩ "web").2.filter
        isUpdateReposEvent =
      [.updateReposCall [⟨"nginx", "bitnami/nginx", "1.0", "u"⟩]]) ∧
    (installChart
        ⟨fun _ => .success 0, .error "no chart", .error "still no chart",
          fun _ => .ok "nginx", fun _ => .ok ⟨"web", "apps", 1, "ok"⟩⟩
        "apps" ⟨"nginx", "bitnami/nginx", "1.0", "u"⟩ "web" =
      (.error (.couldNotLocate "bitnami/nginx" "1.0" "still no chart"),
        [.historyCheck "web", .locateAttempt 1,
          .updateReposCall [⟨"nginx", "bitnami/nginx", "1.0", "u"⟩],
          .locateAttempt 2])) := by
  refine ⟨⟨by decide, rfl⟩, ?_, ?_⟩
  · exact (C3_locate_retry_exactly_once
      ⟨fun _ => .success 0, .error "no chart", .error "still no chart",
        fun _ => .ok "nginx", fun _ => .ok ⟨"web", "apps", 1, "ok"⟩⟩
      "apps" ⟨"nginx", "bitnami/nginx", "1.0", "u"⟩ "web" "no chart"
      (by decide) rfl).1
  · exact (C3_locate_retry_exactly_once
      ⟨fun _ => .success 0, .error "no chart", .error "still no chart",
        fun _ => .ok "nginx", fun _ => .ok ⟨"web", "apps", 1, "ok"⟩⟩
      "apps" ⟨"nginx", "bitnami/nginx", "1.0", "u"⟩ "web" "no chart"
      (by decide) rfl).2.2 "still no chart" rfl

/-- Claim C9: an install request with an empty release name behaves
exactly as one naming the chart's catalog short name — the empty name
is replaced by `chartDef.Name` (lines 141-143) — and in particular the
history pre-check is issued for `chartDef.Name`. -/
theorem C9_empty_release_name_defaults (env : InstallEnv) (nsp : String)
    (chartDef : ChartDefinition) :
    installChart env nsp chartDef "" = installChart env nsp chartDef chartDef.name ∧
    (installChart env nsp chartDef "").2.head? =
      some (.historyCheck chartDef.name) := by
  have hres : resolvedName chartDef "" = chartDef.name := by simp [resolvedName]
  have hres2 : resolvedName chartDef chartDef.name = chartDef.name := by
    by_cases hc : chartDef.name = "" <;> simp [resolvedName, hc]
  constructor
  · unfold installChart
    rw [hres, hres2]
  · have h := installChart_head_event env nsp chartDef ""
    rw [hres] at h
    exact h

/-- Closed form of the node loop: the totals are sums over all nodes and
the per-node list is the entry list in node order. -/
theorem metrics_fold_eq (ms : List NodeMetricsSample) (nodes : List NodeInfo)
    (acc : MetricsAcc) :
    nodes.foldl (metricsStep ms) acc =
      { totalCPUUsage :=
          acc.totalCPUUsage + (nodes.map (fun n => (nodeUsage ms n).1)).sum
        totalCPUCapacity :=
          acc.totalCPUCapacity + (nodes.map (fun n => n.allocatableCPUMilli)).sum
        totalMemUsage :=
          acc.totalMemUsage + (nodes.map (fun n => (nodeUsage ms n).2)).sum
        totalMemCapacity :=
          acc.totalMemCapacity + (nodes.map (fun n => n.allocatableMemBytes)).sum
        nodes := acc.nodes ++ nodes.map (mkNodeEntry ms) } := by
  induction nodes generalizing acc with
  | nil => simp
  | cons n rest ih =>
    rw [List.foldl_cons, ih]
    simp [metricsStep, add_assoc]

/-- Closed form of the whole snapshot. -/
theorem snapshot_spec (nodes : List NodeInfo) (ms : List NodeMetricsSample) :
    getClusterMetricsSnapshot nodes ms =
      { totalCPUUsageMilli := (nodes.map (fun n => (nodeUsage ms n).1)).sum
        totalCPUCapacityMilli := (nodes.map (fun n => n.allocatableCPUMilli)).sum
        totalMemUsageBytes := (nodes.map (fun n => (nodeUsage ms n).2)).sum
        totalMemCapacityBytes := (nodes.map (fun n => n.allocatableMemBytes)).sum
        avgCPUUsagePercent :=
          pct ((nodes.map (fun n => (nodeUsage ms n).1)).sum)
            ((nodes.map (fun n => n.allocatableCPUMilli)).sum)
        avgMemUsagePercent :=
          pct ((nodes.map (fun n => (nodeUsage ms n).2)).sum)
            ((nodes.map (fun n => n.allocatableMemBytes)).sum)
        nodes := nodes.map (mkNodeEntry ms) } := by
  unfold getClusterMetricsSnapshot
  rw [metrics_fold_eq]
  simp

/-- Claim C5: a node that appears in the node list but has no entry in
the node-metrics list is still emitted in the per-node result with zero
CPU and memory usage and its true allocatable capacity; every node's
(possibly zero) usage and allocatable capacity, this one's included,
enters the cluster-wide totals, and the per-node output covers exactly
the node list in order. -/
theorem C5_missing_metrics_counted_as_zero (nodes : List NodeInfo)
    (ms : List NodeMetricsSample) (n : NodeInfo)
    (hmem : n ∈ nodes) (hnone : findMetrics ms n.name = none) :
    (mkNodeEntry ms n ∈ (getClusterMetricsSnapshot nodes ms).nodes ∧
      (mkNodeEntry ms n).cpuUsageMilli = 0 ∧
      (mkNodeEntry ms n).memUsageBytes = 0 ∧
      (mkNodeEntry ms n).cpuAvailMilli = n.allocatableCPUMilli ∧
      (mkNodeEntry ms n).memAvailBytes = n.allocatableMemBytes) ∧
    ((getClusterMetricsSnapshot nodes ms).nodes.map (fun e => e.name) =
      nodes.map (fun k => k.name)) ∧
    ((getClusterMetricsSnapshot nodes ms).totalCPUCapacityMilli =
      (nodes.map (fun k => k.allocatableCPUMilli)).sum) ∧
    ((getClusterMetricsSnapshot nodes ms).totalMemCapacityBytes =
      (nodes.map (fun k => k.allocatableMemBytes)).sum) ∧
    ((getClusterMetricsSnapshot nodes ms).totalCPUUsageMilli =
      (nodes.map (fun k => (nodeUsage ms k).1)).sum) ∧
    ((getClusterMetricsSnapshot nodes ms).totalMemUsageBytes =
      (nodes.map (fun k => (nodeUsage ms k).2)).sum) := by
  have hu : nodeUsage ms n = (0, 0) := by simp [nodeUsage, hnone]
  rw [snapshot_spec]
  refine ⟨⟨List.mem_map_of_mem _ hmem, ?_, ?_, rfl, rfl⟩, ?_, rfl, rfl, rfl, rfl⟩
  · simp [mkNodeEntry, hu]
  · simp [mkNodeEntry, hu]
  · simp [List.map_map, mkNodeEntry, Function.comp]

/-- Claim C5, witness: a single node with no metrics sample. -/
theorem C5_witness :
    ((⟨"node1", 2000, 4096⟩ : NodeInfo) ∈
        [(⟨"node1", 2000, 4096⟩ : NodeInfo)] ∧
      findMetrics [] "node1" = none) ∧
    (mkNodeEntry [] ⟨"node1", 2000, 4096⟩ ∈
        (getClusterMetricsSnapshot [⟨"node1", 2000, 4096⟩] []).nodes ∧
      (mkNodeEntry [] ⟨"node1", 2000, 4096⟩).cpuUsageMilli = 0 ∧
      (mkNodeEntry [] ⟨"node1", 2000, 4096⟩).memUsageBytes = 0 ∧
      (getClusterMetricsSnapshot [⟨"node1", 2000, 4096⟩] []).totalCPUCapacityMilli
        = 2000) :=
  ⟨⟨by decide, rfl⟩, by
    have h := C5_missing_metrics_counted_as_zero
      [⟨"node1", 2000, 4096⟩] [] ⟨"node1", 2000, 4096⟩ (by decide) rfl
    exact ⟨h.1.1, h.1.2.1, h.1.2.2.1, by rw [h.2.2.1]; decide⟩⟩

/-- Claim C6: a node whose allocatable CPU (resp. memory) capacity is
zero gets a CPU (resp. memory) usage percentage of exactly 0 — the
zero-capacity guard, not a division error — and the cluster-wide
average percentages are likewise 0 whenever the corresponding total
capacity is zero; the per-node entry at each index is the one computed
from the node at that index. -/
theorem C6_zero_capacity_yields_zero_percent (nodes : List NodeInfo)
    (ms : List NodeMetricsSample) (i : Nat) (n : NodeInfo)
    (hn : nodes[i]? = some n) :
    ((getClusterMetricsSnapshot nodes ms).nodes[i]? = some (mkNodeEntry ms n)) ∧
    (n.allocatableCPUMilli = 0 → (mkNodeEntry ms n).cpuUsagePercent = 0) ∧
    (n.allocatableMemBytes = 0 → (mkNodeEntry ms n).memUsagePercent = 0) ∧
    ((getClusterMetricsSnapshot nodes ms).totalCPUCapacityMilli = 0 →
      (getClusterMetricsSnapshot nodes ms).avgCPUUsagePercent = 0) ∧
    ((getClusterMetricsSnapshot nodes ms).totalMemCapacityBytes = 0 →
      (getClusterMetricsSnapshot nodes ms).avgMemUsagePercent = 0) := by
  rw [snapshot_spec]
  refine ⟨?_, ?_, ?_, ?_, ?_⟩
  · simp [List.getElem?_map, hn]
  · intro h
    simp [mkNodeEntry, pct, h]
  · intro h
    simp [mkNodeEntry, pct, h]
  · intro h
    simp only at h
    simp [pct, h]
  · intro h
    simp only at h
    simp [pct, h]

/-- Claim C6, witness: a node with zero allocatable capacity but
non-zero usage yields 0% on both axes, per node and cluster-wide. -/
theorem C6_witness :
    (([(⟨"n0", 0, 0⟩ : NodeInfo)][0]? = some (⟨"n0", 0, 0⟩ : NodeInfo)) ∧
      (⟨"n0", 0, 0⟩ : NodeInfo).allocatableCPUMilli = 0 ∧
      (⟨"n0", 0, 0⟩ : NodeInfo).allocatableMemBytes = 0) ∧
    ((mkNodeEntry [⟨"n0", 100, 200⟩] ⟨"n0", 0, 0⟩).cpuUsagePercent = 0 ∧
      (mkNodeEntry [⟨"n0", 100, 200⟩] ⟨"n0", 0, 0⟩).memUsagePercent = 0 ∧
      (getClusterMetricsSnapshot [⟨"n0", 0, 0⟩]
        [⟨"n0", 100, 200⟩]).avgCPUUsagePercent = 0) :=
  ⟨⟨rfl, rfl, rfl⟩, by
    have h := C6_zero_capacity_yields_zero_percent
      [⟨"n0", 0, 0⟩] [⟨"n0", 100, 200⟩] 0 ⟨"n0", 0, 0⟩ rfl
    exact ⟨h.2.1 rfl, h.2.2.1 rfl, h.2.2.2.1 (by decide)⟩⟩

/-! ## Supporting lemmas for the node-port enrichment -/

theorem insertPort_ne_nil (m : List (String × Int)) (k : String) (v : Int) :
    insertPort m k v ≠ [] := by
  unfold insertPort
  split
  · intro hnil
    rename_i hany
    rcases m with _ | ⟨p, rest⟩
    · simp at hany
    · simp at hnil
  · simp

theorem collectPortsAux_ne_nil (ports : List ServicePort)
    (m : List (String × Int)) (h : m ≠ []) :
    collectPortsAux m ports ≠ [] := by
  induction ports generalizing m with
  | nil => simpa [collectPortsAux] using h
  | cons p rest ih =>
    unfold collectPortsAux
    split
    · exact ih _ (insertPort_ne_nil m (portKey p) p.nodePort)
    · exact ih _ h

theorem collectPortsAux_ne_nil_of_pos (ports : List ServicePort)
    (m : List (String × Int)) (h : ∃ p ∈ ports, 0 < p.nodePort) :
    collectPortsAux m ports ≠ [] := by
  induction ports generalizing m with
  | nil => simp at h
  | cons p rest ih =>
    unfold collectPortsAux
    split
    · exact collectPortsAux_ne_nil rest _
        (insertPort_ne_nil m (portKey p) p.nodePort)
    · rename_i hp
      rcases h with ⟨q, hq, hqpos⟩
      rcases List.mem_cons.mp hq with hq1 | hq2
      · subst hq1; exact absurd hqpos hp
      · exact ih _ ⟨q, hq2, hqpos⟩

theorem collectPortsAux_eq_of_no_pos (ports : List ServicePort)
    (m : List (String × Int)) (h : ∀ p ∈ ports, ¬ 0 < p.nodePort) :
    collectPortsAux m ports = m := by
  induction ports generalizing m with
  | nil => rfl
  | cons p rest ih =>
    unfold collectPortsAux
    split
    · rename_i hp
      exact absurd hp (h p (List.mem_cons_self p rest))
    · exact ih m (fun q hq => h q (List.mem_cons_of_mem p hq))

theorem collectServicePorts_ne_nil_of_pos (s : K8sService)
    (h : hasPositivePort s = true) : collectServicePorts [] s ≠ [] := by
  unfold collectServicePorts
  apply collectPortsAux_ne_nil_of_pos
  simpa [hasPositivePort] using h

theorem collectServicePorts_nil_of_no_pos (s : K8sService)
    (m : List (String × Int)) (h : hasPositivePort s = false) :
    collectServicePorts m s = m := by
  unfold collectServicePorts
  apply collectPortsAux_eq_of_no_pos
  intro p hp
  have h2 : ∀ x ∈ s.ports, x.nodePort ≤ 0 := by simpa [hasPositivePort] using h
  exact not_lt.mpr (h2 p hp)

/-- Claim C7: the node-port map of a release is exactly the ports
collected from the first Service that is of type NodePort or
LoadBalancer and carries at least one positive node port; Services that
are not of those types contribute nothing, and Services after that
first contributing one are never scanned — their ports are never
aggregated into the map.  (If no qualifying Service has a positive
port, the map is empty.) -/
theorem C7_first_qualifying_service_wins (services : List K8sService) :
    getReleaseNodePorts services =
      match services.find?
        (fun s => qualifiesForPorts s && hasPositivePort s) with
      | some s => collectServicePorts [] s
      | none => [] := by
  unfold getReleaseNodePorts
  induction services with
  | nil => rfl
  | cons s rest ih =>
    by_cases hq : qualifiesForPorts s
    · by_cases hp : hasPositivePort s
      · have hne := collectServicePorts_ne_nil_of_pos s hp
        have hlen : 0 < (collectServicePorts [] s).length :=
          List.length_pos.mpr hne
        rw [List.find?_cons_of_pos _ (by simp [hq, hp])]
        simp [nodePortsLoop, hq, hlen]
      · have hnil := collectServicePorts_nil_of_no_pos s [] (by
          simpa using hp)
        rw [List.find?_cons_of_neg _ (by simp [hq, hp])]
        simpa [nodePortsLoop, hq, hnil] using ih
    · rw [List.find?_cons_of_neg _ (by simp [hq])]
      simpa [nodePortsLoop, hq] using ih

/-! ## Supporting lemmas for uninstallation error mapping -/

/-- The not-found message produced at line 269 always contains the
substring "not found", whatever the release name and namespace are. -/
theorem notFoundMsg_contains (name ns : String) :
    strContains (notFoundMsg name ns) "not found" = true := by
  unfold strContains notFoundMsg
  have hlit : ("' not found in namespace '" : String).data =
      ("' " : String).data ++ ("not found" : String).data ++
        (" in namespace '" : String).data := by decide
  rw [string_data_append, string_data_append, string_data_append,
    string_data_append, hlit]
  have h := hasSubList_append
    (("release '" : String).data ++ name.data ++ ("' " : String).data)
    ("not found" : String).data
    ((" in namespace '" : String).data ++ ns.data ++ ("'" : String).data)
  simpa [List.append_assoc] using h

/-- Claim C8, counterexample.  A backend error whose message contains
"not found" without the full "release: not found" marker — here a
missing-namespace error — is (correctly) wrapped as the generic
uninstall failure, but the handler then maps it to HTTP 404, not the
HTTP 500 the claim asserts for every non-"release: not found" backend
error, because the handler matches the looser substring "not found"
(handlers.go line 115) against a wrapped message that still contains
the backend text. -/
theorem C8_counterexample :
    strContains "namespaces \x22demo\x22 not found" "release: not found"
      = false ∧
    uninstallRelease (.error "namespaces \x22demo\x22 not found") "myapp" "apps"
      = .error
          (genericUninstallMsg "myapp" "namespaces \x22demo\x22 not found") ∧
    uninstallReleaseHandler (.error "namespaces \x22demo\x22 not found")
      "myapp" "apps" = .notFound404 := by
  refine ⟨by decide, rfl, by decide⟩

/-- Claim C8, amended: a backend error containing "release: not found"
is mapped to the distinct not-found error and to HTTP 404; every other
backend error is wrapped as the generic uninstall failure, which the
handler maps to HTTP 404 when the wrapped message (which embeds the
backend text) still contains "not found" and to HTTP 500 otherwise; a
successful backend uninstall yields HTTP 200 with a confirmation. -/
theorem C8_uninstall_error_mapping (m name ns : String) :
    (strContains m "release: not found" = true →
      uninstallRelease (.error m) name ns = .error (notFoundMsg name ns) ∧
      uninstallReleaseHandler (.error m) name ns = .notFound404) ∧
    (strContains m "release: not found" = false →
      uninstallRelease (.error m) name ns =
        .error (genericUninstallMsg name m) ∧
      uninstallReleaseHandler (.error m) name ns =
        (if strContains (genericUninstallMsg name m) "not found"
          then .notFound404 else .serverError500)) ∧
    uninstallReleaseHandler (.ok ()) name ns = .ok200 := by
  refine ⟨?_, ?_, rfl⟩
  · intro h
    constructor
    · simp [uninstallRelease, h]
    · simp [uninstallReleaseHandler, uninstallRelease, h,
        notFoundMsg_contains]
  · intro h
    constructor
    · simp [uninstallRelease, h]
    · simp [uninstallReleaseHandler, uninstallRelease, h]

/-- Claim C8, witness: a "release: not found" backend error maps to 404;
a plain transport error maps to 500. -/
theorem C8_witness :
    (strContains "uninstall: Release not loaded: x: release: not found"
        "release: not found" = true ∧
      strContains "connection refused" "release: not found" = false) ∧
    (uninstallReleaseHandler
        (.error "uninstall: Release not loaded: x: release: not found")
        "x" "apps" = .notFound404 ∧
      uninstallReleaseHandler (.error "connection refused") "x" "apps" =
        .serverError500) :=
  ⟨⟨by decide, by decide⟩, by
    have h1 := (C8_uninstall_error_mapping
      "uninstall: Release not loaded: x: release: not found" "x" "apps").1
      (by decide)
    have h2 := (C8_uninstall_error_mapping "connection refused" "x" "apps").2.1
      (by decide)
    refine ⟨h1.2, ?_⟩
    rw [h2.2]
    decide⟩

/-- Claim C10: mutual exclusion of repository-synchronization passes.
Two goroutines concurrently running `UpdateRepos` on the same
`HelmClient` — each executing `updateReposProg` for its chart list, i.e.
acquiring `repoUpdateMu` first, running the registration loop and the
global refresh, and releasing the mutex last — can never both be inside
the locked body at the same time, in any reachable interleaving: a
caller that arrives while a pass is in flight blocks at the `lock`
instruction until the holder releases the mutex. -/
theorem C10_repo_sync_mutual_exclusion (charts1 charts2 : List ChartDefinition)
    (c : ReposConfig)
    (h : ReposReachable (charts1.length + 1) (charts2.length + 1) c) :
    ¬ (inCS (charts1.length + 1) c.pc1 ∧ inCS (charts2.length + 1) c.pc2) := by
  rintro ⟨h1, h2⟩
  have hinv := mutexInv_reachable h
  have e1 := hinv.1 h1
  have e2 := hinv.2 h2
  rw [e1] at e2
  simp at e2

/-- Claim C10, witness: after thread one acquires the mutex, the
reached configuration does not have both threads in the critical
section. -/
theorem C10_witness :
    ¬ (inCS (([] : List ChartDefinition).length + 1) 1 ∧
       inCS (([] : List ChartDefinition).length + 1) 0) :=
  C10_repo_sync_mutual_exclusion [] [] ⟨1, 0, some .one⟩
    (ReposReachable.step ReposReachable.init
      (ReposStep.lock1 ⟨0, 0, none⟩ rfl rfl))

end AppStoreAPI
